import Mathlib

/-!
Shallow embedding of the AutoTask (ChronoPersona) persona plugin:
`main.py` (plugin event handling and prompt composition), `persona_manager.py`
(trait analysis, persona persistence, quick responses, keyword extraction).

Python dictionaries are embedded as association lists in insertion order
(`Dict`), Python exceptions as an explicit `Except PyError` error monad,
and the external `jieba` segmenter / keyword rankers as injected functions,
following the spec's capability-interface design note.
-/

namespace AutoTask

/-- Python exception values that the embedded code can raise. -/
inductive PyError where
  | keyError : String → PyError
  | attributeError : String → PyError
  | nameError : String → PyError
  | valueError : String → PyError
  | indexError : String → PyError
deriving DecidableEq

/-- Result of a Python expression: a value or a raised exception. -/
abbrev Exc (α : Type) := Except PyError α

instance {ε α : Type} [DecidableEq ε] [DecidableEq α] :
    DecidableEq (Except ε α) := fun x y =>
  match x, y with
  | .error a, .error b =>
    if h : a = b then .isTrue (by rw [h])
    else .isFalse (fun he => by cases he; exact h rfl)
  | .ok a, .ok b =>
    if h : a = b then .isTrue (by rw [h])
    else .isFalse (fun he => by cases he; exact h rfl)
  | .error _, .ok _ => .isFalse (fun he => by cases he)
  | .ok _, .error _ => .isFalse (fun he => by cases he)

/-- Returns true when the computation raised. -/
def excIsError {α : Type} : Exc α → Bool
  | .error _ => true
  | .ok _ => false

/-- A Python dict with string keys, in insertion order. -/
abbrev Dict (α : Type) := List (String × α)

/-- Dict lookup (`d.get(k)` / `k in d`): first entry with the given key. -/
def dget {α : Type} (d : Dict α) (k : String) : Option α :=
  match d with
  | [] => none
  | p :: rest => if p.1 = k then some p.2 else dget rest k

/-- Dict assignment `d[k] = v`: replaces the value at an existing key in
place, otherwise appends the new entry (Python insertion-order semantics). -/
def dset {α : Type} (d : Dict α) (k : String) (v : α) : Dict α :=
  match d with
  | [] => [(k, v)]
  | p :: rest => if p.1 = k then (k, v) :: rest else p :: dset rest k v

/-- Python substring containment `pat in s`. -/
def strContains (s pat : String) : Bool := decide (pat.data <:+: s.data)

/-- Python `message.lower()` (`String.toLower`, written as a map over the
character list). -/
def pyLower (s : String) : String := ⟨s.data.map Char.toLower⟩

/-- Python `s.split(sep)` for a one-character separator, over the
character list: preserves empty parts, yielding one more part than there
are separator occurrences. -/
def pySplitCh (sep : Char) : List Char → List (List Char)
  | [] => [[]]
  | c :: rest =>
    match pySplitCh sep rest with
    | [] => [[c]]
    | part :: parts =>
      if c = sep then [] :: part :: parts else (c :: part) :: parts

/-- Python `s.split(":")` and friends (`String.splitOn`, written over the
character list). -/
def pySplit (s : String) (sep : Char) : List String :=
  (pySplitCh sep s.data).map (fun l => ⟨l⟩)

/-- Python `s.strip()` (`String.trim`, written over the character list):
drops whitespace from both ends. -/
def pyStrip (s : String) : String :=
  ⟨((s.data.dropWhile Char.isWhitespace).reverse.dropWhile
      Char.isWhitespace).reverse⟩

/-- Python slice `l[-n:]` (note `l[-0:]` is the whole list). -/
def pythonLastN {α : Type} (n : Nat) (l : List α) : List α :=
  if n = 0 then l else l.drop (l.length - n)

/-- The plugin configuration fields consumed by the embedded code
(`config.json`, a well-formed configuration). -/
structure Config where
  defaultTemplate : String
  templatePath : String
  userPersonaPath : String
  maxHistoryAnalysis : Nat
  minKeywordFrequency : Int
  priorityTraits : List (String × List String)
  ignoredKeywords : List String
deriving DecidableEq

/-- A loaded persona template value (`template_data['persona']`): each field
is `some` when the corresponding JSON key is present. `format_template`
accesses `identity`, `principles` and `language_style` with `[]` (raising
`KeyError` when absent) and `speaking_style` with `.get(..., '')`. -/
structure TemplateV where
  identity : Option String
  principles : Option (List String)
  speaking_style : Option String
  language_style : Option String
deriving DecidableEq

/-- A per-user persisted persona record
(`{"traits": {...}, "last_updated": ...}`). -/
structure PersonaRecord where
  traits : Dict Int
  lastUpdated : Option String
deriving DecidableEq

/-- One quick-response pattern group from `init_quick_responses`. -/
structure QuickPattern where
  name : String
  patterns : List String
  responses : Dict String
deriving DecidableEq

/-- The concrete `self.quick_patterns` table built by
`init_quick_responses`, in declaration order. -/
def quick_patterns : List QuickPattern :=
  [ { name := "问候"
    , patterns := ["你好", "猫猫", "喵喵", "在吗", "在不在"]
    , responses :=
        [ ("first_time", "喵~初次见面，我是你的AI助手，请多指教~")
        , ("normal", "喵喵~我在呢，有什么需要帮忙的吗？")
        , ("familiar", "主人好啊，一直都在等你呢~") ] }
  , { name := "再见"
    , patterns := ["再见", "拜拜", "晚安", "下次见"]
    , responses :=
        [ ("normal", "好的喵~下次见~")
        , ("familiar", "主人再见，要想我哦~") ] } ]

/-- Loop body of `check_quick_response`: scan the pattern groups in order;
on the first group whose trigger substrings hit the (already lowered)
message, return `responses.get("normal", responses["normal"])`. Python
evaluates the default argument `responses["normal"]` eagerly, so a missing
"normal" key raises `KeyError`. -/
def quickLoop (m : String) : List QuickPattern → Exc (Option String)
  | [] => .ok none
  | qp :: rest =>
    if qp.patterns.any (fun p => strContains m p) then
      match dget qp.responses "normal" with
      | some r => .ok (some r)
      | none => .error (.keyError "normal")
    else quickLoop m rest

/-- Embeds `PersonaManager.check_quick_response`: lower-case the message, then scan
the configured pattern groups. -/
def check_quick_response (qps : List QuickPattern) (message : String) :
    Exc (Option String) :=
  quickLoop (pyLower message) qps

/-- Modelled from the spec: "Lower-cases comparison, checks each configured
pattern group's trigger substrings against the message (substring
containment, not tokenized match); first matching group wins (category
declaration order); returns that group's normal-tier canned response",
returning nothing when no pattern matches. -/
def quick_response_spec (qps : List QuickPattern) (message : String) :
    Option String :=
  (qps.find? (fun qp =>
      qp.patterns.any (fun p => strContains (pyLower message) p))).bind
    (fun qp => dget qp.responses "normal")

/-- Embeds `Counter(words)`: occurrence counts in first-encounter order. -/
def counterAdd (d : Dict Int) : List String → Dict Int
  | [] => d
  | w :: rest => counterAdd (dset d w ((dget d w).getD 0 + 1)) rest

/-- Inner loop of `analyze_conversation`: for one counted word, scan the
`priority_traits` table and record `"category:word" = count` for every
category whose trait list contains the word. -/
def applyCategories (word : String) (count : Int) (tc : Dict Int) :
    List (String × List String) → Dict Int
  | [] => tc
  | cat :: rest =>
    applyCategories word count
      (if cat.2.contains word then dset tc (cat.1 ++ ":" ++ word) count else tc)
      rest

/-- Outer loop of `analyze_conversation` over the word counter. -/
def collectTraits (priorityTraits : List (String × List String))
    (tc : Dict Int) : List (String × Int) → Dict Int
  | [] => tc
  | p :: rest => collectTraits priorityTraits (applyCategories p.1 p.2 tc priorityTraits) rest

/-- Embeds `PersonaManager.analyze_conversation`, with the external `jieba.cut`
segmenter injected as `cut`. Empty input yields an empty dict; with more
than one message only the last three are joined and analyzed. -/
def analyze_conversation (cut : String → List String)
    (priorityTraits : List (String × List String)) (messages : List String) :
    Dict Int :=
  match messages with
  | [] => []
  | [m] => collectTraits priorityTraits [] (counterAdd [] (cut m))
  | _ =>
    collectTraits priorityTraits []
      (counterAdd [] (cut (String.intercalate " " (pythonLastN 3 messages))))

/-- Embeds `PersonaManager.load_user_persona`: the stored record, or
`{"traits": {}, "last_updated": None}` when the user's file is absent. -/
def load_user_persona (store : Dict PersonaRecord) (user : String) :
    PersonaRecord :=
  (dget store user).getD { traits := [], lastUpdated := none }

/-- The merge loop of `update_user_persona`: for each incoming trait set
`current[trait] = max(current[trait], count)` when present, else
`current[trait] = count`. `f old new` is the combination applied at an
existing key (shared with the keyword-score merge of `extract_keywords`). -/
def dmergeWith {β : Type} (f : β → β → β) (d : Dict β) :
    List (String × β) → Dict β
  | [] => d
  | p :: rest =>
    dmergeWith f
      (match dget d p.1 with
       | some old => dset d p.1 (f old p.2)
       | none => dset d p.1 p.2)
      rest

/-- The merged-and-cleaned traits dict of `update_user_persona`: max-merge
of incoming counts, then drop entries below `min_keyword_frequency`. -/
def updateTraits (old : Dict Int) (newTraits : Dict Int) (minFreq : Int) :
    Dict Int :=
  (dmergeWith (fun o c => max o c) old newTraits).filter
    (fun p => decide (minFreq ≤ p.2))

/-- The whole record written back by `update_user_persona` (same record as
loaded, with merged traits; `last_updated` is not touched). -/
def merged_persona (minFreq : Int) (store : Dict PersonaRecord)
    (user : String) (newTraits : Dict Int) : PersonaRecord :=
  { load_user_persona store user with
    traits := updateTraits (load_user_persona store user).traits newTraits minFreq }

/-- Embeds `PersonaManager.update_user_persona` at the store level: whole-record
overwrite of the user's entry with the merged record. -/
def update_user_persona (minFreq : Int) (store : Dict PersonaRecord)
    (user : String) (newTraits : Dict Int) : Dict PersonaRecord :=
  dset store user (merged_persona minFreq store user newTraits)

/-- Stable insertion of one pair into a list sorted by descending second
component; models one step of Python's stable `sorted(..., key=lambda x:
x[1], reverse=True)`. -/
def insertDesc {α β : Type} [LinearOrder β] (p : α × β) :
    List (α × β) → List (α × β)
  | [] => [p]
  | q :: rest => if p.2 < q.2 then q :: insertDesc p rest else p :: q :: rest

/-- Python's `sorted(items, key=lambda x: x[1], reverse=True)`. -/
def sortByValDesc {α β : Type} [LinearOrder β] (l : List (α × β)) :
    List (α × β) :=
  l.foldr insertDesc []

/-- The `traits_by_category` loop of `generate_prompt_modifier`:
`category, value = trait.split(':')` raises `ValueError` unless the split
yields exactly two parts; otherwise the value is appended to its
category's list. -/
def build_tbc (acc : Dict (List String)) :
    List (String × Int) → Exc (Dict (List String))
  | [] => .ok acc
  | kv :: rest =>
    match pySplit kv.1 ':' with
    | [category, value] =>
      build_tbc (dset acc category (((dget acc category).getD []) ++ [value])) rest
    | _ => .error (.valueError "not enough values to unpack")

/-- One category's modifier sentence in `generate_prompt_modifier`
(`values[0]` raises `IndexError` on an empty list). -/
def categoryPhrase (category : String) (values : List String) : Exc String :=
  if category = "身份关系" then
    match values with
    | v :: _ => .ok ("你是我的" ++ v)
    | [] => .error (.indexError "list index out of range")
  else if category = "称谓方式" then
    match values with
    | v :: _ => .ok ("你应该称呼我为" ++ v)
    | [] => .error (.indexError "list index out of range")
  else if category = "说话特征" then
    .ok ("说话时要经常使用 " ++ String.intercalate ", " values)
  else
    .ok ("请保持" ++ String.intercalate ", " values ++ "的" ++ category)

/-- The modifier-collection loop of `generate_prompt_modifier`. -/
def build_modifiers (acc : List String) :
    List (String × List String) → Exc (List String)
  | [] => .ok acc
  | cv :: rest =>
    match categoryPhrase cv.1 cv.2 with
    | .ok m => build_modifiers (acc ++ [m]) rest
    | .error e => .error e

/-- Embeds `PersonaManager.generate_prompt_modifier`: empty traits give `""`;
otherwise traits are sorted by descending weight, grouped by category
(raising on a malformed tag), phrased per category, and newline-joined. -/
def generate_prompt_modifier (store : Dict PersonaRecord) (user : String) :
    Exc String :=
  let persona := load_user_persona store user
  if persona.traits = [] then .ok ""
  else
    match build_tbc [] (sortByValDesc persona.traits) with
    | .error e => .error e
    | .ok tbc =>
      match build_modifiers [] tbc with
      | .error e => .error e
      | .ok mods => .ok (String.intercalate "\n" mods)

/-- The fixed catgirl reminder line appended by `format_template`. -/
def catgirl_reminder : String := "特别注意: 每次回答都必须以\'喵~\'开头或结尾"

/-- Embeds `ChronoPersonaPlugin.format_template`: renders identity, principles,
speaking style and language style; templates whose identity contains
"猫娘" get the fixed reminder appended. Required keys are accessed with
`[]` in source order (identity, principles, language_style). -/
def format_template (t : TemplateV) : Exc String :=
  let isCatgirl := strContains (t.identity.getD "") "猫娘"
  match t.identity with
  | none => .error (.keyError "identity")
  | some ident =>
    match t.principles with
    | none => .error (.keyError "principles")
    | some ps =>
      match t.language_style with
      | none => .error (.keyError "language_style")
      | some ls =>
        let formatted :=
          ident ++ "\n\n行为准则:\n" ++
          String.intercalate "\n" (ps.map (fun p => "- " ++ p)) ++
          "\n\n说话方式: " ++ (t.speaking_style.getD "") ++
          "\n语言风格: " ++ ls
        .ok (if isCatgirl then formatted ++ "\n\n" ++ catgirl_reminder else formatted)

/-- The in-memory plugin state consumed by `get_persona_prompt` and
`handle_person_message`: configuration, loaded base templates, user
preferences, conversation history, and the persisted persona files. -/
structure PluginState where
  cfg : Config
  baseTemplates : Dict TemplateV
  userPreferences : Dict (Dict String)
  conversationHistory : Dict (List String)
  personaStore : Dict PersonaRecord
deriving DecidableEq

/-- The template name chosen at the top of `get_persona_prompt`: the
configured default, overridden by the user preference's `template` key. -/
def effective_template_name (st : PluginState) (user : String) : String :=
  match dget st.userPreferences user with
  | some prefs => (dget prefs "template").getD st.cfg.defaultTemplate
  | none => st.cfg.defaultTemplate

/-- Line 71 of `main.py`:
`self.base_templates.get(template_name, self.base_templates[default])`.
Python evaluates the default argument eagerly, so a missing default
template raises `KeyError` before the `get` is consulted. -/
def selected_template (st : PluginState) (user : String) : Exc TemplateV :=
  match dget st.baseTemplates st.cfg.defaultTemplate with
  | none => .error (.keyError st.cfg.defaultTemplate)
  | some dt => .ok ((dget st.baseTemplates (effective_template_name st user)).getD dt)

/-- The body of the `try` block of `get_persona_prompt`: select a template,
render it, compute the persona modifier, join (with the extra catgirl tail
when the chosen template name is `catgirl`), and strip. -/
def compose_prompt (st : PluginState) (user : String) : Exc String :=
  match selected_template st user with
  | .error e => .error e
  | .ok template =>
    match format_template template with
    | .error e => .error e
    | .ok prompt =>
      match generate_prompt_modifier st.personaStore user with
      | .error e => .error e
      | .ok pm =>
        .ok (pyStrip
          (if effective_template_name st user = "catgirl" then
            prompt ++ "\n" ++ pm ++ "\n记住要保持猫娘的语气喵~"
          else prompt ++ "\n" ++ pm))

/-- Embeds `ChronoPersonaPlugin.get_fallback_prompt`. -/
def get_fallback_prompt : String := "你是一个友好的AI助手，请用平和的语气交谈。"

/-- Embeds `ChronoPersonaPlugin.get_persona_prompt`: the composed prompt, with any
raised exception caught and replaced by the fixed fallback prompt. -/
def get_persona_prompt (st : PluginState) (user : String) : String :=
  match compose_prompt st user with
  | .ok p => p
  | .error _ => get_fallback_prompt

/-- The observable outcome of one `handle_person_message` run: the state
after the handler, the reply added to the event context (if any), whether
`prevent_default` was called, and whether `analyze_conversation` ran. -/
structure HandlerOutput where
  state : PluginState
  reply : Option String
  prevented : Bool
  analyzeCalled : Bool
deriving DecidableEq

/-- Embeds `ChronoPersonaPlugin.handle_person_message`: quick-response
short-circuit, else history update, then trait analysis and persona update
for messages longer than 5 characters. -/
def handle_person_message (cut : String → List String) (st : PluginState)
    (user message : String) : Exc HandlerOutput :=
  match check_quick_response quick_patterns message with
  | .error e => .error e
  | .ok (some r) => .ok { state := st, reply := some r, prevented := true, analyzeCalled := false }
  | .ok none =>
    let hist := ((dget st.conversationHistory user).getD []) ++ [message]
    let hist := pythonLastN st.cfg.maxHistoryAnalysis hist
    let st := { st with conversationHistory := dset st.conversationHistory user hist }
    if message.length > 5 then
      let newTraits := analyze_conversation cut st.cfg.priorityTraits [message]
      if newTraits ≠ [] then
        .ok { state :=
                { st with personaStore :=
                    update_user_persona st.cfg.minKeywordFrequency st.personaStore user newTraits }
            , reply := none, prevented := false, analyzeCalled := true }
      else .ok { state := st, reply := none, prevented := false, analyzeCalled := true }
    else .ok { state := st, reply := none, prevented := false, analyzeCalled := false }

/-- The manual `keywords_weight` table of `extract_keywords`
(2.0, 1.8 and 1.5 written as exact rationals). -/
def keywords_weight : Dict ℚ :=
  [ ("喜欢", 2), ("讨厌", 2), ("开心", 9/5), ("生气", 9/5)
  , ("游戏", 3/2), ("音乐", 3/2), ("动漫", 3/2), ("运动", 3/2)
  , ("老师", 2), ("同学", 9/5), ("朋友", 9/5), ("前辈", 2) ]

/-- The two merge loops of `extract_keywords`: `keywords[w] = weight` for
every TF-IDF pair, then for every TextRank pair the average with an
existing entry, else the plain weight. Ranker scores are embedded as
rationals. -/
def mergeKeywordScores (tfidf textrank : List (String × ℚ)) : Dict ℚ :=
  dmergeWith (fun a b => (a + b) / 2)
    (dmergeWith (fun _ b => b) [] tfidf) textrank

/-- The manual-weight loop: `keywords[word] *= keywords_weight[word]` for
words in the table (others unchanged). -/
def applyManualWeights (d : Dict ℚ) : Dict ℚ :=
  d.map (fun p => (p.1, p.2 * ((dget keywords_weight p.1).getD 1)))

/-- The scored pairs that survive to the end of `extract_keywords`: merged,
manually weighted, `ignored_keywords` filtered out, sorted by descending
score, truncated to 20. -/
def rankedKeywordPairs (ignored : List String)
    (tfidf textrank : List (String × ℚ)) : List (String × ℚ) :=
  (sortByValDesc
    ((applyManualWeights (mergeKeywordScores tfidf textrank)).filter
      (fun p => !(ignored.contains p.1)))).take 20

/-- Embeds `PersonaManager.extract_keywords` with the two external rankers
injected as their `(keyword, weight)` outputs: the surviving pairs with
the weights dropped. -/
def extract_keywords (ignored : List String)
    (tfidf textrank : List (String × ℚ)) : List String :=
  (rankedKeywordPairs ignored tfidf textrank).map Prod.fst

/-- Modelled from the spec: a keyword's final score is "the average of its
two ranking-algorithm scores when it appears in both rankings and its
single score otherwise", `none` when it appears in neither. -/
def combinedScore (tfidf textrank : List (String × ℚ)) (w : String) :
    Option ℚ :=
  match dget tfidf w, dget textrank w with
  | some a, some b => some ((a + b) / 2)
  | some a, none => some a
  | none, some b => some b
  | none, none => none

/-- Modelled from the spec: the combined score "multiplied by the
configured manual weight when the keyword is in the manual weight table". -/
def finalScore (tfidf textrank : List (String × ℚ)) (w : String) :
    Option ℚ :=
  (combinedScore tfidf textrank w).map
    (fun v => v * ((dget keywords_weight w).getD 1))

/-- The names bound at module level by `persona_manager.py`'s import lines
(`json`, `os`, `Counter`, `Dict`/`List`/`Set` from `typing`, `jieba`). -/
def persona_manager_imported_names : List String :=
  ["json", "os", "Counter", "Dict", "List", "Set", "jieba"]

/-- Python builtin names available without an import. -/
def python_builtin_names : List String :=
  ["str", "int", "dict", "list", "set", "bool", "float", "None"]

/-- Evaluating one name used in a function signature of the class body:
Python resolves signature expressions eagerly at definition time, raising
`NameError` for an unbound name. -/
def evalAnnotName (n : String) : Exc Unit :=
  if persona_manager_imported_names.contains n || python_builtin_names.contains n then
    .ok ()
  else .error (.nameError n)

/-- The names referenced by the signatures of `PersonaManager`'s method
definitions, in source order up to and including `check_quick_response`
(`__init__`, `get_user_persona_path`, `analyze_conversation`, then
`check_quick_response`, whose return type names `Optional`). -/
def persona_manager_annot_names : List String :=
  [ "dict", "str"
  , "str", "str"
  , "List", "str", "Dict", "str", "int"
  , "str", "Optional", "str" ]

/-- Executing the class body: evaluate each signature name in order,
stopping at the first unbound one. -/
def evalClassBody : List String → Exc Unit
  | [] => .ok ()
  | n :: rest =>
    match evalAnnotName n with
    | .ok _ => evalClassBody rest
    | .error e => .error e

/-- The attribute dictionary of a `PersonaManager` instance during
`__init__`: a field is `some` once the corresponding `self.x = ...`
assignment has run. `templates_dir` is listed because
`load_category_templates` reads it, but no method ever assigns it. -/
structure PMAttrs where
  config : Option Config := none
  user_personas_dir : Option String := none
  priority_traits : Option (List (String × List String)) := none
  ignored_keywords : Option (List String) := none
  template_categories : Option (List String) := none
  templates_dir : Option String := none
  templates : Option (Dict (Dict TemplateV)) := none

/-- Embeds `PersonaManager.load_category_templates`: its first statement is
`os.path.join(self.templates_dir, category)`, which raises
`AttributeError` when `templates_dir` was never assigned; otherwise the
directory listing (a filesystem black box `fs`) is loaded. -/
def load_category_templates (fs : String → String → Dict TemplateV)
    (self : PMAttrs) (category : String) : Exc (Dict TemplateV) :=
  match self.templates_dir with
  | none => .error (.attributeError "templates_dir")
  | some dir => .ok (fs dir category)

/-- The loop of `PersonaManager.load_all_templates` over the category
list. -/
def loadCategoriesLoop (fs : String → String → Dict TemplateV)
    (self : PMAttrs) (acc : Dict (Dict TemplateV)) :
    List String → Exc (Dict (Dict TemplateV))
  | [] => .ok acc
  | c :: rest =>
    match load_category_templates fs self c with
    | .ok ts => loadCategoriesLoop fs self (dset acc c ts) rest
    | .error e => .error e

/-- Embeds `PersonaManager.load_all_templates`: reads
`self.template_categories` and loads each category. -/
def load_all_templates (fs : String → String → Dict TemplateV)
    (self : PMAttrs) : Exc (Dict (Dict TemplateV)) :=
  match self.template_categories with
  | none => .error (.attributeError "template_categories")
  | some cats => loadCategoriesLoop fs self [] cats

/-- Embeds `PersonaManager.__init__` up to the `self.templates =
self.load_all_templates()` line: each `self.x = ...` assignment in source
order (directory creation is a filesystem side effect with no attribute
change), then the template load. -/
def persona_manager_init (fs : String → String → Dict TemplateV)
    (config : Config) (base_dir : String) : Exc PMAttrs :=
  let s : PMAttrs := {}
  let s := { s with config := some config }
  let s := { s with user_personas_dir := some (base_dir ++ "/" ++ config.userPersonaPath) }
  let s := { s with priority_traits := some config.priorityTraits }
  let s := { s with ignored_keywords := some config.ignoredKeywords }
  let s := { s with template_categories :=
                some ["professions", "personalities", "speaking_styles", "relationships"] }
  match load_all_templates fs s with
  | .error e => .error e
  | .ok ts => .ok { s with templates := some ts }

/-- One primitive operation on the user's persona file. -/
inductive FileOp where
  | truncate
  | writeAll : String → FileOp
deriving DecidableEq

/-- File contents after applying one operation. -/
def applyFileOp (contents : String) : FileOp → String
  | .truncate => ""
  | .writeAll s => contents ++ s

/-- File contents after a sequence of operations (a failed call executes
only a prefix of the sequence). -/
def runFileOps (contents : String) : List FileOp → String
  | [] => contents
  | op :: rest => runFileOps (applyFileOp contents op) rest

/-- The serialized form of a traits dict, as written by `json.dump`. -/
def jsonOfTraits (traits : Dict Int) : String :=
  "\x7b" ++
  String.intercalate ", "
    (traits.map (fun p => "\"" ++ p.1 ++ "\": " ++ toString p.2)) ++
  "\x7d"

/-- The serialized form of a persona record, as written by `json.dump`. -/
def jsonOfPersona (r : PersonaRecord) : String :=
  "\x7b\"traits\": " ++ jsonOfTraits r.traits ++ ", \"last_updated\": " ++
  (match r.lastUpdated with
   | some s => "\"" ++ s ++ "\""
   | none => "null") ++ "\x7d"

/-- The file operations of the persist step of `update_user_persona`:
`open(persona_path, 'w')` truncates the file, then `json.dump` writes the
merged record. -/
def update_user_persona_ops (minFreq : Int) (store : Dict PersonaRecord)
    (user : String) (newTraits : Dict Int) : List FileOp :=
  [ .truncate
  , .writeAll (jsonOfPersona (merged_persona minFreq store user newTraits)) ]

/-! Concrete sample data used by the witness theorems. -/

/-- A small well-formed configuration. -/
def cfg0 : Config :=
  { defaultTemplate := "d", templatePath := "templates"
  , userPersonaPath := "user_personas", maxHistoryAnalysis := 10
  , minKeywordFrequency := 2
  , priorityTraits := [("情感", ["喜欢"])], ignoredKeywords := ["的"] }

/-- A complete non-catgirl template. -/
def tmplA : TemplateV :=
  { identity := some "ID", principles := some []
  , speaking_style := none, language_style := some "S" }

/-- A state whose user preference names a template (`"x"`) that is not
loaded, while the default template is. -/
def stA : PluginState :=
  { cfg := cfg0, baseTemplates := [("d", tmplA)]
  , userPreferences := [("u", [("template", "x")])]
  , conversationHistory := [], personaStore := [] }

/-- The prompt composed for `stA`. -/
def promptA : String := "ID\n\n行为准则:\n\n\n说话方式: \n语言风格: S"

/-- A state with no loaded templates at all. -/
def stB : PluginState :=
  { cfg := cfg0, baseTemplates := [], userPreferences := []
  , conversationHistory := [], personaStore := [] }

/-- A plain state with one loaded template and no per-user data. -/
def st0 : PluginState :=
  { cfg := cfg0, baseTemplates := [("d", tmplA)], userPreferences := []
  , conversationHistory := [], personaStore := [] }

/-- A catgirl-marked template. -/
def cgT : TemplateV :=
  { identity := some "你是猫娘", principles := some ["保持可爱"]
  , speaking_style := none, language_style := some "可爱" }

/-- The rendering of `cgT`. -/
def cgOut : String :=
  "你是猫娘\n\n行为准则:\n- 保持可爱\n\n说话方式: \n语言风格: 可爱\n\n特别注意: 每次回答都必须以\'喵~\'开头或结尾"

/-- A stored record holding one trait. -/
def recA : PersonaRecord := { traits := [("情感:喜欢", 2)], lastUpdated := none }

/-- A one-user persona store. -/
def store2 : Dict PersonaRecord := [("u", recA)]

/-- An incoming trait map raising the stored weight. -/
def new2 : Dict Int := [("情感:喜欢", 5)]

/-- A stored record holding a trait tag with no colon separator. -/
def recBad : PersonaRecord := { traits := [("badtag", 3)], lastUpdated := none }

/-- A state whose persona store holds the malformed record. -/
def st10 : PluginState :=
  { cfg := cfg0, baseTemplates := [("d", tmplA)], userPreferences := []
  , conversationHistory := [], personaStore := [("u", recBad)] }

/-- The handler outcome for the short message `"abc"` in `st0`. -/
def out9 : HandlerOutput :=
  { state := { st0 with conversationHistory := [("u", ["abc"])] }
  , reply := none, prevented := false, analyzeCalled := false }

/-- A one-pair TF-IDF ranker output. -/
def tf0 : List (String × ℚ) := [("苹果", 3)]

/-- An empty TextRank ranker output. -/
def tr0 : List (String × ℚ) := []

/-- A small ignore set. -/
def ig0 : List String := ["的"]

/-! Helper lemmas about the dict embedding. -/

theorem dget_dset_self {α : Type} (d : Dict α) (k : String) (v : α) :
    dget (dset d k v) k = some v := by
  induction d with
  | nil => simp [dset, dget]
  | cons p rest ih =>
    by_cases h : p.1 = k
    · simp [dset, dget, h]
    · simp [dset, dget, h, ih]

theorem dget_dset_ne {α : Type} (d : Dict α) (k k' : String) (v : α)
    (h : k' ≠ k) : dget (dset d k v) k' = dget d k' := by
  induction d with
  | nil => simp [dset, dget, Ne.symm h]
  | cons p rest ih =>
    by_cases hp : p.1 = k
    · subst hp
      simp [dset, dget, Ne.symm h]
    · by_cases hp' : p.1 = k'
      · simp [dset, dget, hp, hp', h]
      · simp [dset, dget, hp, hp', ih]

theorem dget_eq_none_of_not_mem_keys {α : Type} (d : Dict α) (k : String)
    (h : k ∉ d.map Prod.fst) : dget d k = none := by
  induction d with
  | nil => rfl
  | cons p rest ih =>
    simp only [List.map_cons, List.mem_cons] at h
    push_neg at h
    simp [dget, Ne.symm h.1, ih h.2]

theorem map_fst_dset {α : Type} (d : Dict α) (k : String) (v : α) :
    (dset d k v).map Prod.fst =
      if k ∈ d.map Prod.fst then d.map Prod.fst else d.map Prod.fst ++ [k] := by
  induction d with
  | nil => simp [dset]
  | cons p rest ih =>
    by_cases h : p.1 = k
    · simp [dset, h]
    · have hne : k ≠ p.1 := fun he => h he.symm
      by_cases hm : k ∈ rest.map Prod.fst
      · simp [dset, h, ih, hm, hne]
      · simp [dset, h, ih, hm, hne]

theorem nodup_keys_dset {α : Type} (d : Dict α) (k : String) (v : α)
    (hd : (d.map Prod.fst).Nodup) : ((dset d k v).map Prod.fst).Nodup := by
  rw [map_fst_dset]
  split
  · exact hd
  · next h => simp [List.nodup_append, hd, h]

theorem dget_of_mem_of_nodup {α : Type} (d : Dict α) (p : String × α)
    (hd : (d.map Prod.fst).Nodup) (hp : p ∈ d) : dget d p.1 = some p.2 := by
  induction d with
  | nil => cases hp
  | cons q rest ih =>
    simp only [List.map_cons, List.nodup_cons] at hd
    rcases List.mem_cons.mp hp with h | h
    · subst h
      simp [dget]
    · have hne : q.1 ≠ p.1 := by
        intro he
        exact hd.1 (he ▸ List.mem_map_of_mem Prod.fst h)
      simp [dget, hne, ih hd.2 h]

theorem dget_dmergeWith {β : Type} (f : β → β → β) (l : List (String × β))
    (d : Dict β) (w : String) (hl : (l.map Prod.fst).Nodup) :
    dget (dmergeWith f d l) w =
      match dget l w with
      | some v =>
        (match dget d w with
         | some old => some (f old v)
         | none => some v)
      | none => dget d w := by
  induction l generalizing d with
  | nil => simp [dmergeWith, dget]
  | cons p rest ih =>
    simp only [List.map_cons, List.nodup_cons] at hl
    by_cases hw : p.1 = w
    · subst hw
      have hrest : dget rest p.1 = none :=
        dget_eq_none_of_not_mem_keys rest p.1 hl.1
      rw [dmergeWith, ih _ hl.2]
      cases hd : dget d p.1 <;>
        simp [dget, hrest, hd, dget_dset_self]
    · rw [dmergeWith, ih _ hl.2]
      cases hd : dget d p.1 <;>
        simp [dget, hw, hd, dget_dset_ne _ _ _ _ (Ne.symm hw)]

theorem nodup_keys_dmergeWith {β : Type} (f : β → β → β)
    (l : List (String × β)) (d : Dict β)
    (hd : (d.map Prod.fst).Nodup) :
    ((dmergeWith f d l).map Prod.fst).Nodup := by
  induction l generalizing d with
  | nil => exact hd
  | cons p rest ih =>
    rw [dmergeWith]
    cases hp : dget d p.1 <;> exact ih _ (nodup_keys_dset _ _ _ hd)

theorem dget_filter {α : Type} (f : String × α → Bool) (d : Dict α)
    (w : String) (hd : (d.map Prod.fst).Nodup) :
    dget (d.filter f) w =
      match dget d w with
      | some v => if f (w, v) then some v else none
      | none => none := by
  induction d with
  | nil => rfl
  | cons p rest ih =>
    simp only [List.map_cons, List.nodup_cons] at hd
    by_cases hw : p.1 = w
    · subst hw
      have hp : p = (p.1, p.2) := rfl
      by_cases hf : f p
      · rw [List.filter_cons_of_pos hf]
        simp [dget, ← hp, hf]
      · rw [List.filter_cons_of_neg hf]
        have : dget (rest.filter f) p.1 = none := by
          apply dget_eq_none_of_not_mem_keys
          intro hmem
          exact hd.1 (((List.filter_sublist rest).map Prod.fst).subset hmem)
        simp [dget, this, ← hp, hf]
    · by_cases hf : f p
      · rw [List.filter_cons_of_pos hf]
        simp [dget, hw, ih hd.2]
      · rw [List.filter_cons_of_neg hf]
        simp [dget, hw, ih hd.2]

/-! Helper lemmas about the stable descending sort. -/

theorem mem_insertDesc {α β : Type} [LinearOrder β] (p x : α × β)
    (l : List (α × β)) : x ∈ insertDesc p l ↔ x = p ∨ x ∈ l := by
  induction l with
  | nil => simp [insertDesc]
  | cons q rest ih =>
    by_cases h : p.2 < q.2
    · simp only [insertDesc, h, if_true, List.mem_cons, ih]
      tauto
    · simp only [insertDesc, h, if_false, List.mem_cons]

theorem mem_sortByValDesc {α β : Type} [LinearOrder β] (x : α × β)
    (l : List (α × β)) : x ∈ sortByValDesc l ↔ x ∈ l := by
  induction l with
  | nil => simp [sortByValDesc]
  | cons q rest ih =>
    simp only [sortByValDesc, List.foldr] at ih ⊢
    rw [mem_insertDesc, ih, List.mem_cons]

theorem pairwise_insertDesc {α β : Type} [LinearOrder β] (p : α × β)
    (l : List (α × β)) (hl : l.Pairwise (fun a b => b.2 ≤ a.2)) :
    (insertDesc p l).Pairwise (fun a b => b.2 ≤ a.2) := by
  induction l with
  | nil => simp [insertDesc]
  | cons q rest ih =>
    rw [List.pairwise_cons] at hl
    by_cases h : p.2 < q.2
    · rw [insertDesc]
      simp only [h, if_true]
      rw [List.pairwise_cons]
      constructor
      · intro x hx
        rcases (mem_insertDesc p x rest).mp hx with he | hm
        · exact he ▸ le_of_lt h
        · exact hl.1 x hm
      · exact ih hl.2
    · rw [insertDesc]
      simp only [h, if_false]
      refine List.pairwise_cons.mpr ⟨fun x hx => ?_, List.pairwise_cons.mpr hl⟩
      rcases List.mem_cons.mp hx with he | hm
      · exact he ▸ le_of_not_lt h
      · exact le_trans (hl.1 x hm) (le_of_not_lt h)

theorem pairwise_sortByValDesc {α β : Type} [LinearOrder β]
    (l : List (α × β)) :
    (sortByValDesc l).Pairwise (fun a b => b.2 ≤ a.2) := by
  induction l with
  | nil => simp [sortByValDesc]
  | cons q rest ih => exact pairwise_insertDesc q _ ih

/-- A malformed tag anywhere in the processed list makes the
`traits_by_category` loop raise. -/
theorem build_tbc_error (l : List (String × Int)) (acc : Dict (List String))
    (kv : String × Int) (hkv : kv ∈ l)
    (hbad : (pySplit kv.1 ':').length ≠ 2) :
    ∃ e, build_tbc acc l = .error e := by
  induction l generalizing acc with
  | nil => cases hkv
  | cons h rest ih =>
    rcases List.mem_cons.mp hkv with he | hm
    · subst he
      rw [build_tbc]
      cases hs : pySplit kv.1 ':' with
      | nil => exact ⟨_, rfl⟩
      | cons a t =>
        cases t with
        | nil => exact ⟨_, rfl⟩
        | cons b t2 =>
          cases t2 with
          | nil => exact absurd (by rw [hs]; rfl) hbad
          | cons c t3 => exact ⟨_, rfl⟩
    · rw [build_tbc]
      cases hs : pySplit h.1 ':' with
      | nil => exact ⟨_, rfl⟩
      | cons a t =>
        cases t with
        | nil => exact ⟨_, rfl⟩
        | cons b t2 =>
          cases t2 with
          | nil => exact ih _ hm
          | cons c t3 => exact ⟨_, rfl⟩

/-- When every pattern group has a "normal" response, the quick-response
loop computes exactly the first-match-wins specification. -/
theorem quickLoop_spec (m : String) (qps : List QuickPattern)
    (h : ∀ qp ∈ qps, (dget qp.responses "normal").isSome = true) :
    quickLoop m qps =
      .ok ((qps.find? (fun qp =>
          qp.patterns.any (fun p => strContains m p))).bind
        (fun qp => dget qp.responses "normal")) := by
  induction qps with
  | nil => rfl
  | cons qp rest ih =>
    by_cases hc : qp.patterns.any (fun p => strContains m p) = true
    · cases hg : dget qp.responses "normal" with
      | some r => simp [quickLoop, hc, List.find?_cons_of_pos, hg]
      | none =>
        have hs := h qp (List.mem_cons_self qp rest)
        rw [hg] at hs
        simp at hs
    · have ihr := ih (fun q hq => h q (List.mem_cons_of_mem _ hq))
      simp [quickLoop, hc, List.find?_cons_of_neg, ihr]

/-- Claim C4: `check_quick_response` lower-cases the message, tests each
configured pattern group's triggers by substring containment in
declaration order, returns the first matching group's "normal"-tier canned
response, and returns `None` when no trigger is contained. -/
theorem c4_check_quick_response_matches_spec (message : String) :
    check_quick_response quick_patterns message =
      .ok (quick_response_spec quick_patterns message) := by
  have h : ∀ qp ∈ quick_patterns, (dget qp.responses "normal").isSome = true := by
    decide
  simpa [check_quick_response, quick_response_spec] using
    quickLoop_spec (pyLower message) quick_patterns h

/-- Claim C5: when `check_quick_response` matches, `handle_person_message`
returns exactly the canned response, prevents default handling, leaves the
whole plugin state (history and persona store) unchanged, and never calls
`analyze_conversation`. -/
theorem c5_quick_match_short_circuits (cut : String → List String)
    (st : PluginState) (user message r : String)
    (h : check_quick_response quick_patterns message = .ok (some r)) :
    handle_person_message cut st user message =
      .ok { state := st, reply := some r, prevented := true
          , analyzeCalled := false } := by
  unfold handle_person_message
  rw [h]

theorem c5_witness :
    check_quick_response quick_patterns "你好" =
      .ok (some "喵喵~我在呢，有什么需要帮忙的吗？") ∧
    handle_person_message (fun _ => []) st0 "u" "你好" =
      .ok { state := st0, reply := some "喵喵~我在呢，有什么需要帮忙的吗？"
          , prevented := true, analyzeCalled := false } :=
  ⟨by decide,
   c5_quick_match_short_circuits (fun _ => []) st0 "u" "你好" _ (by decide)⟩

/-- Claim C9: a message of length at most 5 never triggers trait
extraction (`analyze_conversation` is not called) and leaves the persisted
persona store unchanged. -/
theorem c9_short_messages_never_analyzed (cut : String → List String)
    (st : PluginState) (user message : String) (out : HandlerOutput)
    (hlen : message.length ≤ 5)
    (hout : handle_person_message cut st user message = .ok out) :
    out.analyzeCalled = false ∧ out.state.personaStore = st.personaStore := by
  unfold handle_person_message at hout
  cases hq : check_quick_response quick_patterns message with
  | error e => rw [hq] at hout; cases hout
  | ok o =>
    rw [hq] at hout
    cases o with
    | some r =>
      injection hout with h
      subst h
      exact ⟨rfl, rfl⟩
    | none =>
      have h5 : ¬ (message.length > 5) := by omega
      simp only [if_neg h5] at hout
      injection hout with h
      subst h
      exact ⟨rfl, rfl⟩

theorem c9_witness :
    ("abc".length ≤ 5) ∧
    out9.analyzeCalled = false ∧ out9.state.personaStore = st0.personaStore :=
  ⟨by decide,
   c9_short_messages_never_analyzed (fun _ => []) st0 "u" "abc" out9
     (by decide) (by decide)⟩

/-- Claim C3: `PersonaManager` can never be constructed into a usable
instance: executing the class body raises `NameError` at
`check_quick_response`'s `Optional` return annot (never imported), and
even apart from that `__init__` raises `AttributeError` because
`load_all_templates` reads the never-assigned `templates_dir`. -/
theorem c3_persona_manager_never_usable
    (fs : String → String → Dict TemplateV) (config : Config)
    (base_dir : String) :
    evalClassBody persona_manager_annot_names =
      .error (.nameError "Optional") ∧
    persona_manager_init fs config base_dir =
      .error (.attributeError "templates_dir") :=
  ⟨by decide, rfl⟩

/-- Claim C7 (amended): the persist step of `update_user_persona` is a
whole-record overwrite — on full execution the file holds exactly the
serialized merged record — but it is not atomic: it truncates first, so
executing only the truncation (a failure before `json.dump` completes)
leaves an empty file regardless of the previous contents. -/
theorem c7_whole_record_overwrite_not_atomic (minFreq : Int)
    (store : Dict PersonaRecord) (user : String) (newTraits : Dict Int)
    (old : String) :
    runFileOps old (update_user_persona_ops minFreq store user newTraits) =
      jsonOfPersona (merged_persona minFreq store user newTraits) ∧
    runFileOps old
      (List.take 1 (update_user_persona_ops minFreq store user newTraits)) =
      "" := by
  constructor
  · show runFileOps "" [.writeAll _] = _
    simp [runFileOps, applyFileOp]
  · rfl

/-- Claim C7 counterexample: with a stored record and a failure right
after the truncating `open(..., 'w')`, the file holds neither the complete
previous record nor the complete merged record. -/
theorem c7_counterexample :
    runFileOps (jsonOfPersona recA)
        (List.take 1 (update_user_persona_ops 3 store2 "u" new2)) ≠
      jsonOfPersona recA ∧
    runFileOps (jsonOfPersona recA)
        (List.take 1 (update_user_persona_ops 3 store2 "u" new2)) ≠
      jsonOfPersona (merged_persona 3 store2 "u" new2) := by
  decide

/-- Claim C1: `get_persona_prompt` never raises — any composition error
(including a malformed record) yields exactly the fixed fallback string, a
successful composition is returned as-is, an unknown preferred template
name falls back to the default template, and when the default template is
missing too the result is the fixed fallback string. -/
theorem c1_get_persona_prompt_never_raises (st : PluginState) (user : String)
    (e : PyError) (p : String) (dt : TemplateV) :
    (compose_prompt st user = .error e →
      get_persona_prompt st user = get_fallback_prompt) ∧
    (compose_prompt st user = .ok p → get_persona_prompt st user = p) ∧
    (dget st.baseTemplates (effective_template_name st user) = none →
      dget st.baseTemplates st.cfg.defaultTemplate = some dt →
      selected_template st user = .ok dt) ∧
    (dget st.baseTemplates (effective_template_name st user) = none →
      dget st.baseTemplates st.cfg.defaultTemplate = none →
      get_persona_prompt st user = get_fallback_prompt) := by
  refine ⟨fun h => ?_, fun h => ?_, fun h1 h2 => ?_, fun h1 h2 => ?_⟩
  · unfold get_persona_prompt
    rw [h]
  · unfold get_persona_prompt
    rw [h]
  · simp [selected_template, h1, h2]
  · have hsel : selected_template st user =
        .error (.keyError st.cfg.defaultTemplate) := by
      simp [selected_template, h2]
    have hc : compose_prompt st user =
        .error (.keyError st.cfg.defaultTemplate) := by
      unfold compose_prompt
      rw [hsel]
    unfold get_persona_prompt
    rw [hc]

theorem c1_witness :
    (dget stA.baseTemplates (effective_template_name stA "u") = none ∧
     dget stA.baseTemplates stA.cfg.defaultTemplate = some tmplA ∧
     selected_template stA "u" = .ok tmplA) ∧
    (compose_prompt stA "u" = .ok promptA ∧
     get_persona_prompt stA "u" = promptA) ∧
    (dget stB.baseTemplates (effective_template_name stB "u") = none ∧
     dget stB.baseTemplates stB.cfg.defaultTemplate = none ∧
     get_persona_prompt stB "u" = get_fallback_prompt) ∧
    (compose_prompt stB "u" = .error (.keyError "d") ∧
     get_persona_prompt stB "u" = get_fallback_prompt) :=
  ⟨⟨by decide, by decide,
    (c1_get_persona_prompt_never_raises stA "u" (.keyError "d") promptA
      tmplA).2.2.1 (by decide) (by decide)⟩,
   ⟨by decide,
    (c1_get_persona_prompt_never_raises stA "u" (.keyError "d") promptA
      tmplA).2.1 (by decide)⟩,
   ⟨by decide, by decide,
    (c1_get_persona_prompt_never_raises stB "u" (.keyError "d") promptA
      tmplA).2.2.2 (by decide) (by decide)⟩,
   ⟨by decide,
    (c1_get_persona_prompt_never_raises stB "u" (.keyError "d") promptA
      tmplA).1 (by decide)⟩⟩

/-- Claim C6: whenever a template's identity text contains the marker
"猫娘" and `format_template` succeeds, its output contains the fixed
reminder line requiring every response to begin or end with "喵~". -/
theorem c6_catgirl_reminder_never_omitted (t : TemplateV) (out : String)
    (hcat : strContains (t.identity.getD "") "猫娘" = true)
    (hok : format_template t = .ok out) :
    strContains out catgirl_reminder = true := by
  unfold format_template at hok
  cases hid : t.identity with
  | none => rw [hid] at hok; cases hok
  | some ident =>
    rw [hid] at hok
    cases hps : t.principles with
    | none => rw [hps] at hok; cases hok
    | some ps =>
      rw [hps] at hok
      cases hls : t.language_style with
      | none => rw [hls] at hok; cases hok
      | some ls =>
        rw [hls] at hok
        rw [hid] at hcat
        simp only [Option.getD_some] at hcat
        simp only [Option.getD_some, hcat, if_true] at hok
        injection hok with h
        subst h
        unfold strContains
        apply decide_eq_true
        rw [String.data_append]
        exact (List.suffix_append _ _).isInfix

theorem c6_witness :
    strContains (cgT.identity.getD "") "猫娘" = true ∧
    format_template cgT = .ok cgOut ∧
    strContains cgOut catgirl_reminder = true :=
  ⟨by decide, by decide,
   c6_catgirl_reminder_never_omitted cgT cgOut (by decide) (by decide)⟩

/-- Claim C10: a stored trait tag whose `split(':')` does not yield
exactly two parts makes `generate_prompt_modifier` raise, and therefore
the whole prompt composed by `get_persona_prompt` collapses to the fixed
fallback string. -/
theorem c10_malformed_tag_collapses_prompt (st : PluginState)
    (user : String) (rec : PersonaRecord) (tag : String) (w : Int)
    (hrec : dget st.personaStore user = some rec)
    (hmem : (tag, w) ∈ rec.traits)
    (hbad : (pySplit tag ':').length ≠ 2) :
    excIsError (generate_prompt_modifier st.personaStore user) = true ∧
    get_persona_prompt st user = get_fallback_prompt := by
  have hload : load_user_persona st.personaStore user = rec := by
    unfold load_user_persona
    rw [hrec]
    rfl
  have hne : rec.traits ≠ [] := by
    intro h
    rw [h] at hmem
    cases hmem
  have hsorted : (tag, w) ∈ sortByValDesc rec.traits :=
    (mem_sortByValDesc _ _).mpr hmem
  obtain ⟨e, he⟩ := build_tbc_error (sortByValDesc rec.traits) [] (tag, w)
    hsorted hbad
  have hgen : generate_prompt_modifier st.personaStore user = .error e := by
    unfold generate_prompt_modifier
    rw [hload, if_neg hne, he]
  refine ⟨by rw [hgen]; rfl, ?_⟩
  have hcomp : excIsError (compose_prompt st user) = true := by
    unfold compose_prompt
    cases hsel : selected_template st user with
    | error e2 => rfl
    | ok tpl =>
      cases hfmt : format_template tpl with
      | error e3 => simp [hfmt, excIsError]
      | ok pr => simp [hfmt, hgen, excIsError]
  unfold get_persona_prompt
  cases hc : compose_prompt st user with
  | error e4 => rfl
  | ok pp =>
    rw [hc] at hcomp
    cases hcomp

theorem c10_witness :
    dget st10.personaStore "u" = some recBad ∧
    (("badtag", (3 : Int)) ∈ recBad.traits) ∧
    ((pySplit "badtag" ':').length ≠ 2) ∧
    excIsError (generate_prompt_modifier st10.personaStore "u") = true ∧
    get_persona_prompt st10 "u" = get_fallback_prompt := by
  have h := c10_malformed_tag_collapses_prompt st10 "u" recBad "badtag" 3
    (by decide) (by decide) (by decide)
  exact ⟨by decide, by decide, by decide, h.1, h.2⟩

/-- Claim C2: after `update_user_persona`, a tag's weight in the persisted
record is `max(old, incoming)` when the tag existed before, else the
incoming weight (and it is dropped when that value is below
`min_keyword_frequency`), and no persisted tag has weight strictly below
`min_keyword_frequency`. -/
theorem c2_merge_max_and_cleanup (minFreq : Int) (store : Dict PersonaRecord)
    (user : String) (newTraits : Dict Int) (tag : String) (w wn : Int)
    (hold : ((load_user_persona store user).traits.map Prod.fst).Nodup)
    (hnew : (newTraits.map Prod.fst).Nodup) :
    (dget (load_user_persona
        (update_user_persona minFreq store user newTraits) user).traits tag =
          some w → minFreq ≤ w) ∧
    (dget newTraits tag = some wn →
      dget (load_user_persona
        (update_user_persona minFreq store user newTraits) user).traits tag =
          match dget (load_user_persona store user).traits tag with
          | some wo => if minFreq ≤ max wo wn then some (max wo wn) else none
          | none => if minFreq ≤ wn then some wn else none) := by
  have hload : load_user_persona
      (update_user_persona minFreq store user newTraits) user =
      merged_persona minFreq store user newTraits := by
    unfold load_user_persona update_user_persona
    rw [dget_dset_self]
    rfl
  have hmkeys : ((dmergeWith (fun o c => max o c)
      (load_user_persona store user).traits newTraits).map Prod.fst).Nodup :=
    nodup_keys_dmergeWith _ _ _ hold
  constructor
  · intro h
    rw [hload] at h
    unfold merged_persona updateTraits at h
    rw [dget_filter _ _ _ hmkeys] at h
    cases hm : dget (dmergeWith (fun o c => max o c)
        (load_user_persona store user).traits newTraits) tag with
    | none => rw [hm] at h; cases h
    | some v =>
      rw [hm] at h
      simp only [decide_eq_true_eq] at h
      by_cases hv : minFreq ≤ v
      · rw [if_pos hv] at h
        injection h with hw
        exact hw ▸ hv
      · rw [if_neg hv] at h
        cases h
  · intro hwn
    rw [hload]
    unfold merged_persona updateTraits
    rw [dget_filter _ _ _ hmkeys, dget_dmergeWith _ _ _ _ hnew, hwn]
    simp only [decide_eq_true_eq]
    cases ho : dget (load_user_persona store user).traits tag <;> simp [ho]

theorem c2_witness :
    ((load_user_persona store2 "u").traits.map Prod.fst).Nodup ∧
    (new2.map Prod.fst).Nodup ∧
    ((3 : Int) ≤ 5) ∧
    dget (load_user_persona
      (update_user_persona 3 store2 "u" new2) "u").traits "情感:喜欢" =
        some 5 := by
  have h := c2_merge_max_and_cleanup 3 store2 "u" new2 "情感:喜欢" 5 5
    (by decide) (by decide)
  exact ⟨by decide, by decide, h.1 (by decide), (h.2 (by decide)).trans (by decide)⟩

/-- The merged keyword dict looks up to exactly the spec's combined score
(average when in both rankings, single score otherwise). -/
theorem dget_mergeKeywordScores (tfidf textrank : List (String × ℚ))
    (w : String) (h1 : (tfidf.map Prod.fst).Nodup)
    (h2 : (textrank.map Prod.fst).Nodup) :
    dget (mergeKeywordScores tfidf textrank) w =
      combinedScore tfidf textrank w := by
  unfold mergeKeywordScores combinedScore
  rw [dget_dmergeWith _ _ _ _ h2, dget_dmergeWith _ _ _ _ h1]
  cases ha : dget tfidf w <;> cases hb : dget textrank w <;> simp [dget]

/-- The keyword dict after the two merge loops has unique keys. -/
theorem nodup_keys_mergeKeywordScores (tfidf textrank : List (String × ℚ)) :
    ((mergeKeywordScores tfidf textrank).map Prod.fst).Nodup :=
  nodup_keys_dmergeWith _ _ _
    (nodup_keys_dmergeWith _ _ _ List.nodup_nil)

/-- Claim C8: `extract_keywords` returns the keyword strings of its ranked
pair list: at most 20 of them, sorted by descending final score, each
scored as the (average-or-single) combined ranking score times the manual
weight, and none belonging to the ignore set. -/
theorem c8_extract_keywords_ranking (ignored : List String)
    (tfidf textrank : List (String × ℚ)) (p : String × ℚ)
    (h1 : (tfidf.map Prod.fst).Nodup) (h2 : (textrank.map Prod.fst).Nodup) :
    extract_keywords ignored tfidf textrank =
      (rankedKeywordPairs ignored tfidf textrank).map Prod.fst ∧
    (extract_keywords ignored tfidf textrank).length ≤ 20 ∧
    (rankedKeywordPairs ignored tfidf textrank).Pairwise
      (fun a b => b.2 ≤ a.2) ∧
    (p ∈ rankedKeywordPairs ignored tfidf textrank →
      ignored.contains p.1 = false ∧
      finalScore tfidf textrank p.1 = some p.2) := by
  refine ⟨rfl, ?_, ?_, fun hp => ?_⟩
  · rw [extract_keywords, List.length_map, rankedKeywordPairs,
      List.length_take]
    exact min_le_left _ _
  · exact List.Pairwise.sublist (List.take_sublist _ _)
      (pairwise_sortByValDesc _)
  · rw [rankedKeywordPairs] at hp
    have hp1 := List.mem_of_mem_take hp
    have hp2 := (mem_sortByValDesc _ _).mp hp1
    obtain ⟨hpw, hpred⟩ := List.mem_filter.mp hp2
    unfold applyManualWeights at hpw
    obtain ⟨q, hq, hgq⟩ := List.mem_map.mp hpw
    subst hgq
    rw [Bool.not_eq_true'] at hpred
    constructor
    · exact hpred
    · have hqget : dget (mergeKeywordScores tfidf textrank) q.1 = some q.2 :=
        dget_of_mem_of_nodup _ _ (nodup_keys_mergeKeywordScores _ _) hq
      unfold finalScore
      rw [← dget_mergeKeywordScores tfidf textrank q.1 h1 h2, hqget]
      rfl

theorem c8_witness :
    (tf0.map Prod.fst).Nodup ∧
    (tr0.map Prod.fst).Nodup ∧
    (("苹果", (3 : ℚ)) ∈ rankedKeywordPairs ig0 tf0 tr0) ∧
    (ig0.contains "苹果" = false ∧
      finalScore tf0 tr0 "苹果" = some 3) := by
  have hmem : ("苹果", (3 : ℚ)) ∈ rankedKeywordPairs ig0 tf0 tr0 := by
    have hstep : rankedKeywordPairs ig0 tf0 tr0 = [("苹果", (3 : ℚ) * 1)] := rfl
    rw [hstep]
    norm_num
  exact ⟨by decide, by decide, hmem,
    (c8_extract_keywords_ranking ig0 tf0 tr0 ("苹果", 3)
      (by decide) (by decide)).2.2.2 hmem⟩

end AutoTask
